import Mathlib

/-!
# Lead alerts: the `POST /callme` handler of `index.js`

A shallow embedding of the request handler of `index.js` (lines 24-65) and of the
JavaScript operations it relies on, followed by the properties of the handler.

Modelling conventions:

* `Math.random()` is an input of the handler: the rational `r` is the value of the double it
  returns. The arithmetic of line 41 is the binary64 arithmetic of JavaScript: the product
  and the sum are rounded to the nearest double, ties to even (`roundDouble`).
* The calls the handler makes (`split`, `messages.create`, `console.log`, `res.render`) are
  recorded, in program order, as a list of `Event`s.
* `messages.create` is asynchronous: `callme` is the synchronous part of the handler,
  `sendCallback` the function passed to `messages.create`, and `handle` the whole request
  when the client invokes the callback once with `(err, response)`.
* An exception that leaves the handler ends the request: `Sync.threw`.
-/

namespace LeadAlerts

/-! ## JavaScript values -/

/-- JavaScript values seen by the handler: form fields produced by the body parser
(`undefined` for an absent field, a string, or with `extended : true` an array or a nested
object), environment variables (`undefined` or a string) and the arguments of the send
callback. `number n` is an integral number; `object prim` is an object (array, plain object,
`Error`) whose conversion to a primitive is the string `prim`; `objectNoPrimitive` is an
object whose conversion to a primitive throws a TypeError, such as `{toString: 'x'}`, the
value of `name` after the form post `name[toString]=x`. -/
inductive JsValue where
  | undefined
  | null
  | boolean (b : Bool)
  | number (n : Int)
  | nan
  | string (s : String)
  | object (prim : String)
  | objectNoPrimitive
  deriving DecidableEq

/-- ToBoolean, the test performed by `!x` and by `if (x)`; it converts nothing and never
throws. -/
def toBoolean : JsValue → Bool
  | .undefined => false
  | .null => false
  | .boolean b => b
  | .number n => n != 0
  | .nan => false
  | .string s => s != ""
  | .object _ => true
  | .objectNoPrimitive => true

/-- The loose comparison `x == ''` of line 27; `none` when the conversion of `x` to a
primitive throws. -/
def looseEqEmpty : JsValue → Option Bool
  | .undefined => some false
  | .null => some false
  | .boolean b => some (!b)
  | .number n => some (n == 0)
  | .nan => some false
  | .string s => some (s == "")
  | .object prim => some (prim == "")
  | .objectNoPrimitive => none

/-- The string that `"..." + x` appends for the operand `x` (line 49); `none` when the
conversion of `x` to a primitive throws. -/
def toStr : JsValue → Option String
  | .undefined => some "undefined"
  | .null => some "null"
  | .boolean b => some (if b then "true" else "false")
  | .number n => some (toString n)
  | .nan => some "NaN"
  | .string s => some s
  | .object prim => some prim
  | .objectNoPrimitive => none

/-- Splitting of a character sequence at every occurrence of `sep`; an empty sequence
gives one empty piece. -/
def splitChars (sep : Char) : List Char → List (List Char)
  | [] => [[]]
  | c :: cs =>
    if c = sep then [] :: splitChars sep cs
    else
      match splitChars sep cs with
      | [] => [[c]]
      | w :: ws => (c :: w) :: ws

/-- The call `s.split(',')` of line 39. -/
def split (s : String) : List String :=
  (splitChars ',' s.data).map String.mk

/-- The array read `numbers[i]` of line 43: `undefined` outside the array. -/
def elementAt (numbers : List String) (i : Int) : JsValue :=
  if 0 ≤ i then
    match numbers[i.toNat]? with
    | some s => .string s
    | none => .undefined
  else .undefined

/-! ## Binary64 arithmetic -/

/-- Rounding of a rational to the nearest integer, a tie going to the even one. -/
def roundHalfEven (q : ℚ) : Int :=
  let f := Int.floor q
  let d := q - (f : ℚ)
  if d < 1 / 2 then f
  else if 1 / 2 < d then f + 1
  else if f % 2 = 0 then f else f + 1

/-- The exponent `e` of the binade of `x`, `2^e ≤ |x| < 2^(e+1)`, bounded below by `-1022`,
the exponent shared by the subnormal numbers. -/
def binadeExp (x : ℚ) : Int :=
  max (Int.log 2 |x|) (-1022)

/-- The double nearest to `x`, ties to even: `x` is rounded to a multiple of the spacing
`2^(e-52)` of its binade (53 significant bits). This is the result of a JavaScript `*`, `+`
or `-` whose exact value is `x`, for `|x|` below the overflow threshold `2^1024`; the values
of line 41 are below `2^33`, an array having fewer than `2^32` elements. -/
def roundDouble (x : ℚ) : ℚ :=
  (roundHalfEven (x / (2 : ℚ) ^ (binadeExp x - 52)) : ℚ) * (2 : ℚ) ^ (binadeExp x - 52)

/-! ## Data of a request -/

/-- The environment variables read by the handler; `none` is an unset variable. -/
structure ProcessEnv where
  MESSAGEBIRD_ORIGINATOR : Option String
  SALES_AGENT_NUMBERS : Option String
  deriving DecidableEq

/-- The value of `process.env.X`. -/
def envValue : Option String → JsValue
  | none => .undefined
  | some s => .string s

/-- The parsed form body, `req.body`. -/
structure Body where
  name : JsValue
  number : JsValue
  deriving DecidableEq

/-- The request, as far as the handler reads it. -/
structure Request where
  body : Body
  deriving DecidableEq

/-- The parameter object of `messagebird.messages.create` (lines 46-50). -/
structure Message where
  originator : JsValue
  recipients : List JsValue
  body : String
  deriving DecidableEq

/-- The context object given to `res.render` (lines 29-33 and 54-58). -/
structure Context where
  error : String
  name : JsValue
  number : JsValue
  deriving DecidableEq

/-- The calls made while a request is handled. -/
inductive Event where
  | split (subject : String) (result : List String)
  | create (params : Message)
  | log (value : JsValue)
  | render (view : String) (context : Option Context)
  deriving DecidableEq

/-- How the synchronous part of the handler ends: it returned after rendering, it threw
(a conversion of line 27, or `split` on an unset variable), or it returned with the send callback outstanding. -/
inductive Sync where
  | finished (events : List Event)
  | threw (events : List Event)
  | awaiting (events : List Event)
  deriving DecidableEq

/-! ## The handler -/

/-- The condition of lines 26-27, `!name || !number || name == '' || number == ''`,
evaluated from left to right; `none` when a comparison throws. -/
def invalid (body : Body) : Option Bool :=
  if !toBoolean body.name then some true
  else if !toBoolean body.number then some true
  else
    match looseEqEmpty body.name with
    | none => none
    | some e => if e then some true else looseEqEmpty body.number

/-- Line 41: `Math.floor((Math.random() * numbers.length) + 1) - 1`, with `r` the value
of `Math.random()`: the product, the sum and the difference are each rounded to a double,
`Math.floor` is exact. The result is an integer. -/
def randomIndex (r : ℚ) (length : Nat) : Int :=
  Int.floor (roundDouble
    ((Int.floor (roundDouble (roundDouble (r * (length : ℚ)) + 1)) : ℚ) - 1))

/-- The body of the lead message, line 49; `none` when a conversion throws. -/
def leadBody (body : Body) : Option String :=
  match toStr body.name, toStr body.number with
  | some name, some number =>
    some ("You have a new lead: " ++ name ++ ". Call them at " ++ number)
  | _, _ => none

/-- The function passed to `messages.create` (lines 50-64). -/
def sendCallback (req : Request) (err response : JsValue) : List Event :=
  if toBoolean err then
    [ .log err,
      .render "landing" (some
        { error := "An error occurred while requesting a callback!",
          name := req.body.name,
          number := req.body.number }) ]
  else
    [ .log response, .render "sent" none ]

/-- The synchronous part of `app.post('/callme', ...)` (lines 24-50). -/
def callme (env : ProcessEnv) (r : ℚ) (req : Request) : Sync :=
  match invalid req.body with
  | none => .threw []
  | some true =>
    .finished
      [ .render "landing" (some
          { error := "Please fill all required fields!",
            name := req.body.name,
            number := req.body.number }) ]
  | some false =>
    match env.SALES_AGENT_NUMBERS with
    | none => .threw []
    | some s =>
      let numbers := split s
      let index := randomIndex r numbers.length
      let recipient := elementAt numbers index
      match leadBody req.body with
      | none => .threw [.split s numbers]
      | some body =>
        .awaiting
          [ .split s numbers,
            .create
              { originator := envValue env.MESSAGEBIRD_ORIGINATOR,
                recipients := [recipient],
                body := body } ]

/-- The whole request: the synchronous part, then, if a send is outstanding, the callback
invoked once by the client with `(err, response)`. -/
def handle (env : ProcessEnv) (r : ℚ) (req : Request) (err response : JsValue) : List Event :=
  match callme env r req with
  | .finished es => es
  | .threw es => es
  | .awaiting es => es ++ sendCallback req err response

/-! ## Observations on a list of calls -/

/-- The parameter objects of the `messages.create` calls. -/
def creates : List Event → List Message
  | [] => []
  | .create m :: es => m :: creates es
  | _ :: es => creates es

/-- The `res.render` calls, as pairs of view name and context. -/
def renders : List Event → List (String × Option Context)
  | [] => []
  | .render v c :: es => (v, c) :: renders es
  | _ :: es => renders es

/-- The strings on which `split` was called. -/
def splits : List Event → List String
  | [] => []
  | .split s _ :: es => s :: splits es
  | _ :: es => splits es

/-! ## Evaluation on concrete inputs -/

example : split "" = [""] := by decide
example : split "+1,+2" = ["+1", "+2"] := by decide
example : split "a,,b," = ["a", "", "b", ""] := by decide
example : elementAt ["+1", "+2"] 1 = .string "+2" := by decide
example : elementAt ["+1", "+2"] 2 = .undefined := by decide
example : elementAt ["+1", "+2"] (-1) = .undefined := by decide
example : invalid ⟨.string " ", .string "x"⟩ = some false := by decide
example : invalid ⟨.string "Jane", .undefined⟩ = some true := by decide
example : invalid ⟨.object "", .string "x"⟩ = some true := by decide
example : invalid ⟨.objectNoPrimitive, .string "x"⟩ = none := by decide
example : invalid ⟨.objectNoPrimitive, .string ""⟩ = some true := by decide
example : invalid ⟨.string "x", .objectNoPrimitive⟩ = none := by decide
example : leadBody ⟨.string "Jane", .string "555-1234"⟩
    = some "You have a new lead: Jane. Call them at 555-1234" := by decide
example : roundHalfEven (5 / 2) = 2 := by
  norm_num [roundHalfEven, Int.floor_eq_iff]
example : roundHalfEven (7 / 2) = 4 := by
  norm_num [roundHalfEven, Int.floor_eq_iff]

/-! ## Supporting lemmas: `split` -/

theorem splitChars_of_not_mem (sep : Char) (w : List Char) (h : sep ∉ w) :
    splitChars sep w = [w] := by
  induction w with
  | nil => rfl
  | cons c cs ih =>
    have hc : c ≠ sep := fun e => h (e ▸ List.mem_cons_self c cs)
    have hcs : sep ∉ cs := fun m => h (List.mem_cons_of_mem c m)
    simp [splitChars, hc, ih hcs]

theorem splitChars_append_sep (sep : Char) (w rest : List Char) (h : sep ∉ w) :
    splitChars sep (w ++ sep :: rest) = w :: splitChars sep rest := by
  induction w with
  | nil => simp [splitChars]
  | cons c cs ih =>
    have hc : c ≠ sep := fun e => h (e ▸ List.mem_cons_self c cs)
    have hcs : sep ∉ cs := fun m => h (List.mem_cons_of_mem c m)
    simp [splitChars, hc, ih hcs]

/-- Every non-empty list of pieces without the separator is the split of its pieces
joined by the separator. -/
theorem splitChars_intercalate (sep : Char) (d : List (List Char)) (hd : d ≠ [])
    (h : ∀ w ∈ d, sep ∉ w) : splitChars sep (List.intercalate [sep] d) = d := by
  induction d with
  | nil => exact absurd rfl hd
  | cons w d ih =>
    cases d with
    | nil =>
      simpa [List.intercalate] using splitChars_of_not_mem sep w (h w (List.mem_cons_self _ _))
    | cons w2 d2 =>
      have hw : sep ∉ w := h w (List.mem_cons_self _ _)
      have ih2 := ih (by simp) (fun x hx => h x (List.mem_cons_of_mem _ hx))
      have e : List.intercalate [sep] (w :: w2 :: d2)
          = w ++ sep :: List.intercalate [sep] (w2 :: d2) := by
        simp [List.intercalate, List.intersperse]
      rw [e, splitChars_append_sep sep w _ hw, ih2]

/-- Every non-empty directory of identifiers without a comma is the directory of some
configuration string: the identifiers joined by commas. -/
theorem split_join (d : List String) (hd : d ≠ []) (h : ∀ a ∈ d, ',' ∉ a.data) :
    split (String.mk (List.intercalate [','] (d.map String.data))) = d := by
  unfold split
  rw [splitChars_intercalate ',' (d.map String.data) (by simpa using hd)
    (by simpa using h)]
  simp [List.map_map, Function.comp_def]

theorem splitChars_ne_nil (sep : Char) (cs : List Char) : splitChars sep cs ≠ [] := by
  cases cs with
  | nil => simp [splitChars]
  | cons c cs =>
    unfold splitChars
    split
    · simp
    · split <;> simp

theorem split_length_pos (s : String) : 1 ≤ (split s).length := by
  have h := splitChars_ne_nil ',' s.data
  unfold split
  rw [List.length_map]
  exact Nat.one_le_iff_ne_zero.mpr (fun h0 => h (List.length_eq_zero.mp h0))

/-! ## Supporting lemmas: binary64 rounding -/

theorem le_roundHalfEven (q : ℚ) (k : Int) (h : (k : ℚ) ≤ q) : k ≤ roundHalfEven q := by
  have hf : k ≤ Int.floor q := Int.le_floor.mpr h
  unfold roundHalfEven
  simp only
  split_ifs <;> omega

theorem roundHalfEven_le (q : ℚ) (k : Int) (h : q ≤ (k : ℚ)) : roundHalfEven q ≤ k := by
  have hfq : ((Int.floor q : Int) : ℚ) ≤ q := Int.floor_le q
  have hf : Int.floor q ≤ k := by exact_mod_cast hfq.trans h
  have hlt : 0 < q - ((Int.floor q : Int) : ℚ) → Int.floor q + 1 ≤ k := by
    intro hd
    have : ((Int.floor q : Int) : ℚ) < (k : ℚ) := by linarith
    have : Int.floor q < k := by exact_mod_cast this
    omega
  unfold roundHalfEven
  simp only
  split_ifs with h1 h2 h3
  · exact hf
  · exact hlt (by linarith)
  · exact hf
  · exact hlt (by linarith)

theorem binadeExp_le (x : ℚ) (E : Int) (hE : -1021 ≤ E) (hx0 : x ≠ 0)
    (hx : |x| < (2 : ℚ) ^ E) : binadeExp x ≤ E - 1 := by
  have hpos : 0 < |x| := abs_pos.mpr hx0
  have hlog : Int.log 2 |x| < E := (Int.lt_zpow_iff_log_lt (by norm_num) hpos).mp hx
  unfold binadeExp
  omega

theorem roundDouble_zero : roundDouble 0 = 0 := by
  simp [roundDouble, roundHalfEven]

/-- Grid points of spacing 2^(E-53) bound the rounding of any x with |x| < 2^E. -/
theorem roundDouble_grid (x : ℚ) (E : Int) (hE : -1021 ≤ E) (hx : |x| < (2 : ℚ) ^ E)
    (m : Int) :
    ((m : ℚ) * (2 : ℚ) ^ (E - 53) ≤ x → (m : ℚ) * (2 : ℚ) ^ (E - 53) ≤ roundDouble x)
      ∧ (x ≤ (m : ℚ) * (2 : ℚ) ^ (E - 53) → roundDouble x ≤ (m : ℚ) * (2 : ℚ) ^ (E - 53)) := by
  by_cases hx0 : x = 0
  · subst hx0
    rw [roundDouble_zero]
    exact ⟨id, id⟩
  have he := binadeExp_le x E hE hx0 hx
  have hu : (0 : ℚ) < (2 : ℚ) ^ (binadeExp x - 52) := zpow_pos (by norm_num) _
  obtain ⟨n, hn⟩ : ∃ n : ℕ, E - 53 = (n : Int) + (binadeExp x - 52) :=
    ⟨(E - 1 - binadeExp x).toNat, by omega⟩
  have hgrid : (m : ℚ) * (2 : ℚ) ^ (E - 53)
      = ((m * 2 ^ n : Int) : ℚ) * (2 : ℚ) ^ (binadeExp x - 52) := by
    rw [hn, zpow_add₀ (by norm_num : (2 : ℚ) ≠ 0), zpow_natCast]
    push_cast
    ring
  rw [hgrid]
  unfold roundDouble
  constructor
  · intro h
    have hq : ((m * 2 ^ n : Int) : ℚ) ≤ x / (2 : ℚ) ^ (binadeExp x - 52) :=
      (le_div_iff₀ hu).mpr h
    have := le_roundHalfEven _ _ hq
    exact mul_le_mul_of_nonneg_right (by exact_mod_cast this) hu.le
  · intro h
    have hq : x / (2 : ℚ) ^ (binadeExp x - 52) ≤ ((m * 2 ^ n : Int) : ℚ) :=
      (div_le_iff₀ hu).mpr h
    have := roundHalfEven_le _ _ hq
    exact mul_le_mul_of_nonneg_right (by exact_mod_cast this) hu.le

theorem roundDouble_exact (x : ℚ) (E : Int) (hE : -1021 ≤ E) (hx : |x| < (2 : ℚ) ^ E)
    (m : Int) (h : x = (m : ℚ) * (2 : ℚ) ^ (E - 53)) : roundDouble x = x := by
  obtain ⟨h1, h2⟩ := roundDouble_grid x E hE hx m
  rw [← h] at h1 h2
  exact le_antisymm (h2 le_rfl) (h1 le_rfl)


/-- For |x| < 2^33 the multiples of 2^-20 bound the rounding of x. -/
theorem roundDouble_bounds (x : ℚ) (hx : |x| < 2 ^ 33) (m : Int) :
    ((m : ℚ) / 2 ^ 20 ≤ x → (m : ℚ) / 2 ^ 20 ≤ roundDouble x)
      ∧ (x ≤ (m : ℚ) / 2 ^ 20 → roundDouble x ≤ (m : ℚ) / 2 ^ 20) := by
  have h33 : (2 : ℚ) ^ (33 : Int) = 2 ^ 33 := by norm_num
  have h := roundDouble_grid x 33 (by norm_num) (by rw [h33]; exact hx) m
  have e : (m : ℚ) * (2 : ℚ) ^ ((33 : Int) - 53) = (m : ℚ) / 2 ^ 20 := by
    norm_num [zpow_neg, div_eq_mul_inv]
  rwa [e] at h

theorem roundDouble_int_bounds (x : ℚ) (hx : |x| < 2 ^ 33) (k : Int) :
    ((k : ℚ) ≤ x → (k : ℚ) ≤ roundDouble x) ∧ (x ≤ (k : ℚ) → roundDouble x ≤ (k : ℚ)) := by
  have h := roundDouble_bounds x hx (k * 2 ^ 20)
  have e : ((k * 2 ^ 20 : Int) : ℚ) / 2 ^ 20 = (k : ℚ) := by
    push_cast
    ring
  rwa [e] at h

theorem roundDouble_intCast (k : Int) (hk : |(k : ℚ)| < 2 ^ 33) : roundDouble (k : ℚ) = k := by
  obtain ⟨h1, h2⟩ := roundDouble_int_bounds (k : ℚ) hk k
  exact le_antisymm (h2 le_rfl) (h1 le_rfl)

/-- The index of line 41 when the product lies between two multiples of 2^-20 inside one
unit interval. -/
theorem randomIndex_of_bounds (r : ℚ) (N : Nat) (i : Nat) (hi : i < 2 ^ 32)
    (hlo : (i : ℚ) ≤ r * (N : ℚ)) (hhi : r * (N : ℚ) ≤ (i : ℚ) + 1 - 1 / 2 ^ 20) :
    randomIndex r N = (i : Int) := by
  have hiq : (i : ℚ) < 2 ^ 32 := by exact_mod_cast hi
  have hi0 : (0 : ℚ) ≤ (i : ℚ) := Nat.cast_nonneg i
  have hx : |r * (N : ℚ)| < 2 ^ 33 := by
    rw [abs_lt]; constructor <;> linarith
  have e1 : (((i : Int) * 2 ^ 20 : Int) : ℚ) / 2 ^ 20 = (i : ℚ) := by
    push_cast; ring
  have e2 : ((((i : Int) + 1) * 2 ^ 20 - 1 : Int) : ℚ) / 2 ^ 20 = (i : ℚ) + 1 - 1 / 2 ^ 20 := by
    push_cast; ring
  have e3 : ((((i : Int) + 1) * 2 ^ 20 : Int) : ℚ) / 2 ^ 20 = (i : ℚ) + 1 := by
    push_cast; ring
  have e4 : ((((i : Int) + 2) * 2 ^ 20 - 1 : Int) : ℚ) / 2 ^ 20 = (i : ℚ) + 2 - 1 / 2 ^ 20 := by
    push_cast; ring
  have p1 := (roundDouble_bounds _ hx ((i : Int) * 2 ^ 20)).1 (by rw [e1]; exact hlo)
  have p2 := (roundDouble_bounds _ hx (((i : Int) + 1) * 2 ^ 20 - 1)).2 (by rw [e2]; exact hhi)
  rw [e1] at p1
  rw [e2] at p2
  have hy : |roundDouble (r * (N : ℚ)) + 1| < 2 ^ 33 := by
    rw [abs_lt]; constructor <;> linarith
  have t1 := (roundDouble_bounds _ hy (((i : Int) + 1) * 2 ^ 20)).1 (by rw [e3]; linarith)
  have t2 := (roundDouble_bounds _ hy (((i : Int) + 2) * 2 ^ 20 - 1)).2 (by rw [e4]; linarith)
  rw [e3] at t1
  rw [e4] at t2
  have hfl : Int.floor (roundDouble (roundDouble (r * (N : ℚ)) + 1)) = (i : Int) + 1 := by
    rw [Int.floor_eq_iff]
    push_cast
    constructor
    · exact t1
    · have : (0 : ℚ) < 1 / 2 ^ 20 := by positivity
      linarith
  unfold randomIndex
  rw [hfl]
  have hc : (((i : Int) + 1 : Int) : ℚ) - 1 = ((i : Int) : ℚ) := by push_cast; ring
  rw [hc, roundDouble_intCast (i : Int) (by
    rw [abs_lt]; push_cast; constructor <;> linarith)]
  exact Int.floor_intCast _


/-- For a product in [0, 2^32) the last subtraction of line 41 is exact. -/
theorem randomIndex_eq_floor_sub_one (r : ℚ) (N : Nat) (h0 : 0 ≤ r * (N : ℚ))
    (h1 : r * (N : ℚ) < 2 ^ 32) :
    randomIndex r N = Int.floor (roundDouble (roundDouble (r * (N : ℚ)) + 1)) - 1
      ∧ 0 ≤ roundDouble (r * (N : ℚ)) ∧ roundDouble (r * (N : ℚ)) ≤ 2 ^ 32
      ∧ |roundDouble (r * (N : ℚ)) + 1| < 2 ^ 33 := by
  have hx : |r * (N : ℚ)| < 2 ^ 33 := by
    rw [abs_lt]; constructor <;> linarith
  have p1 := (roundDouble_int_bounds _ hx 0).1 (by simpa using h0)
  have p2 := (roundDouble_int_bounds _ hx (2 ^ 32)).2 (by push_cast; linarith)
  push_cast at p1 p2
  have hy : |roundDouble (r * (N : ℚ)) + 1| < 2 ^ 33 := by
    rw [abs_lt]; constructor <;> linarith
  have t1 := (roundDouble_int_bounds _ hy 1).1 (by push_cast; linarith)
  have t2 := (roundDouble_int_bounds _ hy (2 ^ 32 + 1)).2 (by push_cast; linarith)
  push_cast at t1 t2
  refine ⟨?_, p1, p2, hy⟩
  have f1 : 1 ≤ Int.floor (roundDouble (roundDouble (r * (N : ℚ)) + 1)) :=
    Int.le_floor.mpr (by push_cast; exact t1)
  have f2 : Int.floor (roundDouble (roundDouble (r * (N : ℚ)) + 1)) ≤ 2 ^ 32 + 1 := by
    have : ((Int.floor (roundDouble (roundDouble (r * (N : ℚ)) + 1)) : Int) : ℚ)
        ≤ ((2 ^ 32 + 1 : Int) : ℚ) := by
      push_cast
      exact (Int.floor_le _).trans t2
    exact_mod_cast this
  unfold randomIndex
  have hc : ((Int.floor (roundDouble (roundDouble (r * (N : ℚ)) + 1)) : Int) : ℚ) - 1
      = ((Int.floor (roundDouble (roundDouble (r * (N : ℚ)) + 1)) - 1 : Int) : ℚ) := by
    push_cast; ring
  rw [hc, roundDouble_intCast _ (by
    rw [abs_lt]
    have a : ((1 : Int) : ℚ) ≤ (Int.floor (roundDouble (roundDouble (r * (N : ℚ)) + 1)) : ℚ) := by
      exact_mod_cast f1
    have b : (Int.floor (roundDouble (roundDouble (r * (N : ℚ)) + 1)) : ℚ)
        ≤ ((2 ^ 32 + 1 : Int) : ℚ) := by exact_mod_cast f2
    push_cast at a b ⊢
    constructor <;> linarith)]
  exact Int.floor_intCast _

/-- A product of at least i + 1 gives an index of at least i + 1. -/
theorem randomIndex_ge (r : ℚ) (N : Nat) (i : Nat) (h0 : 0 ≤ r * (N : ℚ))
    (h1 : r * (N : ℚ) < 2 ^ 32) (h : (i : ℚ) + 1 ≤ r * (N : ℚ)) :
    (i : Int) + 1 ≤ randomIndex r N := by
  obtain ⟨he, _, _, hy⟩ := randomIndex_eq_floor_sub_one r N h0 h1
  have hx : |r * (N : ℚ)| < 2 ^ 33 := by
    rw [abs_lt]; constructor <;> linarith
  have p := (roundDouble_int_bounds _ hx ((i : Int) + 1)).1 (by push_cast; exact h)
  have t := (roundDouble_int_bounds _ hy ((i : Int) + 2)).1 (by push_cast at p ⊢; linarith)
  have f : (i : Int) + 2 ≤ Int.floor (roundDouble (roundDouble (r * (N : ℚ)) + 1)) :=
    Int.le_floor.mpr t
  omega

/-- A product of at most i - 2^-20 gives an index of at most i - 1. -/
theorem randomIndex_le (r : ℚ) (N : Nat) (i : Nat) (h0 : 0 ≤ r * (N : ℚ))
    (h1 : r * (N : ℚ) < 2 ^ 32) (h : r * (N : ℚ) ≤ (i : ℚ) - 1 / 2 ^ 20) :
    randomIndex r N ≤ (i : Int) - 1 := by
  obtain ⟨he, _, _, hy⟩ := randomIndex_eq_floor_sub_one r N h0 h1
  have hx : |r * (N : ℚ)| < 2 ^ 33 := by
    rw [abs_lt]; constructor <;> linarith
  have e1 : ((((i : Int)) * 2 ^ 20 - 1 : Int) : ℚ) / 2 ^ 20 = (i : ℚ) - 1 / 2 ^ 20 := by
    push_cast; ring
  have e2 : ((((i : Int) + 1) * 2 ^ 20 - 1 : Int) : ℚ) / 2 ^ 20 = (i : ℚ) + 1 - 1 / 2 ^ 20 := by
    push_cast; ring
  have p := (roundDouble_bounds _ hx ((i : Int) * 2 ^ 20 - 1)).2 (by rw [e1]; exact h)
  rw [e1] at p
  have t := (roundDouble_bounds _ hy (((i : Int) + 1) * 2 ^ 20 - 1)).2 (by rw [e2]; linarith)
  rw [e2] at t
  have f : Int.floor (roundDouble (roundDouble (r * (N : ℚ)) + 1)) < (i : Int) + 1 := by
    rw [Int.floor_lt]
    have : (0 : ℚ) < 1 / 2 ^ 20 := by positivity
    push_cast
    linarith
  omega

theorem roundHalfEven_half (k : Int) :
    roundHalfEven ((k : ℚ) + 1 / 2) = if k % 2 = 0 then k else k + 1 := by
  have hf : Int.floor ((k : ℚ) + 1 / 2) = k := by
    rw [Int.floor_eq_iff]
    constructor <;> linarith
  unfold roundHalfEven
  simp only [hf]
  norm_num

theorem binadeExp_eq (x : ℚ) (e : Int) (he : -1022 ≤ e) (hlo : (2 : ℚ) ^ e ≤ |x|)
    (hhi : |x| < (2 : ℚ) ^ (e + 1)) : binadeExp x = e := by
  have hpos : 0 < |x| := lt_of_lt_of_le (zpow_pos (by norm_num) _) hlo
  have h1 : e ≤ Int.log 2 |x| := (Int.zpow_le_iff_le_log (by norm_num) hpos).mp hlo
  have h2 : Int.log 2 |x| < e + 1 := (Int.lt_zpow_iff_log_lt (by norm_num) hpos).mp hhi
  unfold binadeExp
  omega

/-- The sum (1 - 2^-53) + 1 lies halfway between two doubles and rounds to 2. -/
theorem roundDouble_two_sub : roundDouble (1 - 1 / 2 ^ 53 + 1) = 2 := by
  have hb : binadeExp (1 - 1 / 2 ^ 53 + 1) = 0 :=
    binadeExp_eq _ 0 (by norm_num) (by rw [abs_of_nonneg] <;> norm_num)
      (by rw [abs_of_nonneg] <;> norm_num)
  unfold roundDouble
  rw [hb]
  have hq : (1 - 1 / 2 ^ 53 + 1 : ℚ) / (2 : ℚ) ^ ((0 : Int) - 52)
      = ((2 ^ 53 - 1 : Int) : ℚ) + 1 / 2 := by
    norm_num [zpow_neg]
  rw [hq, roundHalfEven_half]
  norm_num [zpow_neg]

/-- The product 3752999689475413/2^52 * 6 = 5 - 2^-51 lies halfway between two doubles
and rounds to 5. -/
theorem roundDouble_five_sub : roundDouble (3752999689475413 / 2 ^ 52 * 6) = 5 := by
  have hb : binadeExp (3752999689475413 / 2 ^ 52 * 6) = 2 :=
    binadeExp_eq _ 2 (by norm_num) (by rw [abs_of_nonneg] <;> norm_num)
      (by rw [abs_of_nonneg] <;> norm_num)
  unfold roundDouble
  rw [hb]
  have hq : (3752999689475413 / 2 ^ 52 * 6 : ℚ) / (2 : ℚ) ^ ((2 : Int) - 52)
      = ((5 * 2 ^ 50 - 1 : Int) : ℚ) + 1 / 2 := by
    norm_num [zpow_neg]
  rw [hq, roundHalfEven_half]
  norm_num [zpow_neg]

/-! ## Supporting lemmas: the handler -/

theorem elementAt_of_lt (numbers : List String) (i : Int) (h0 : 0 ≤ i)
    (hlt : i < (numbers.length : Int)) :
    ∃ h : i.toNat < numbers.length, elementAt numbers i = .string (numbers.get ⟨i.toNat, h⟩) := by
  have h : i.toNat < numbers.length := by omega
  refine ⟨h, ?_⟩
  unfold elementAt
  rw [if_pos h0, List.getElem?_eq_getElem h]
  rfl

theorem invalid_of_nonempty_strings (name number : String) (hn : name ≠ "")
    (hm : number ≠ "") : invalid ⟨.string name, .string number⟩ = some false := by
  simp [invalid, toBoolean, looseEqEmpty, hn, hm]

theorem invalid_of_missing (body : Body)
    (h : body.name = .undefined ∨ body.name = .string ""
      ∨ body.number = .undefined ∨ body.number = .string "") :
    invalid body = some true := by
  unfold invalid
  rcases h with h | h | h | h <;> simp [h, toBoolean, looseEqEmpty]

/-- A body that passes the check of lines 26-27 has convertible fields, so line 49 does not
throw. -/
theorem leadBody_of_valid (body : Body) (h : invalid body = some false) :
    ∃ b, leadBody body = some b := by
  obtain ⟨name, number⟩ := body
  cases name <;> cases number <;>
    simp_all [invalid, toBoolean, looseEqEmpty, leadBody, toStr]

theorem callme_throws (env : ProcessEnv) (r : ℚ) (req : Request)
    (h : invalid req.body = none) : callme env r req = .threw [] := by
  unfold callme
  rw [h]

theorem callme_invalid (env : ProcessEnv) (r : ℚ) (req : Request)
    (h : invalid req.body = some true) :
    callme env r req = .finished
      [ .render "landing" (some
          { error := "Please fill all required fields!",
            name := req.body.name,
            number := req.body.number }) ] := by
  unfold callme
  rw [h]

theorem callme_valid (env : ProcessEnv) (r : ℚ) (req : Request) (s b : String)
    (h : invalid req.body = some false) (hs : env.SALES_AGENT_NUMBERS = some s)
    (hb : leadBody req.body = some b) :
    callme env r req = .awaiting
      [ .split s (split s),
        .create
          { originator := envValue env.MESSAGEBIRD_ORIGINATOR,
            recipients := [elementAt (split s) (randomIndex r (split s).length)],
            body := b } ] := by
  unfold callme
  rw [h, hs]
  simp only [hb]

theorem callme_unset (env : ProcessEnv) (r : ℚ) (req : Request)
    (h : invalid req.body = some false) (hs : env.SALES_AGENT_NUMBERS = none) :
    callme env r req = .threw [] := by
  unfold callme
  rw [h, hs]

theorem handle_throws (env : ProcessEnv) (r : ℚ) (req : Request) (err response : JsValue)
    (h : invalid req.body = none) : handle env r req err response = [] := by
  unfold handle
  rw [callme_throws env r req h]

theorem handle_invalid (env : ProcessEnv) (r : ℚ) (req : Request) (err response : JsValue)
    (h : invalid req.body = some true) :
    handle env r req err response =
      [ .render "landing" (some
          { error := "Please fill all required fields!",
            name := req.body.name,
            number := req.body.number }) ] := by
  unfold handle
  rw [callme_invalid env r req h]

theorem handle_valid (env : ProcessEnv) (r : ℚ) (req : Request) (err response : JsValue)
    (s b : String) (h : invalid req.body = some false)
    (hs : env.SALES_AGENT_NUMBERS = some s) (hb : leadBody req.body = some b) :
    handle env r req err response =
      [ .split s (split s),
        .create
          { originator := envValue env.MESSAGEBIRD_ORIGINATOR,
            recipients := [elementAt (split s) (randomIndex r (split s).length)],
            body := b } ] ++ sendCallback req err response := by
  unfold handle
  rw [callme_valid env r req s b h hs hb]

theorem handle_unset (env : ProcessEnv) (r : ℚ) (req : Request) (err response : JsValue)
    (h : invalid req.body = some false) (hs : env.SALES_AGENT_NUMBERS = none) :
    handle env r req err response = [] := by
  unfold handle
  rw [callme_unset env r req h hs]

theorem creates_sendCallback (req : Request) (err response : JsValue) :
    creates (sendCallback req err response) = [] := by
  unfold sendCallback
  split <;> rfl

theorem splits_sendCallback (req : Request) (err response : JsValue) :
    splits (sendCallback req err response) = [] := by
  unfold sendCallback
  split <;> rfl

theorem renders_sendCallback_err (req : Request) (err response : JsValue)
    (he : toBoolean err = true) :
    renders (sendCallback req err response) =
      [ ("landing", some
          { error := "An error occurred while requesting a callback!",
            name := req.body.name,
            number := req.body.number }) ] := by
  unfold sendCallback
  rw [if_pos he]
  rfl

theorem renders_sendCallback_ok (req : Request) (err response : JsValue)
    (he : toBoolean err = false) :
    renders (sendCallback req err response) = [("sent", none)] := by
  unfold sendCallback
  simp [he, renders]

theorem creates_handle_valid (env : ProcessEnv) (r : ℚ) (req : Request)
    (err response : JsValue) (s b : String) (h : invalid req.body = some false)
    (hs : env.SALES_AGENT_NUMBERS = some s) (hb : leadBody req.body = some b) :
    creates (handle env r req err response) =
      [ { originator := envValue env.MESSAGEBIRD_ORIGINATOR,
          recipients := [elementAt (split s) (randomIndex r (split s).length)],
          body := b } ] := by
  rw [handle_valid env r req err response s b h hs hb]
  simp [creates, creates_sendCallback]

theorem renders_handle_valid (env : ProcessEnv) (r : ℚ) (req : Request)
    (err response : JsValue) (s : String) (h : invalid req.body = some false)
    (hs : env.SALES_AGENT_NUMBERS = some s) :
    renders (handle env r req err response) = renders (sendCallback req err response) := by
  obtain ⟨b, hb⟩ := leadBody_of_valid req.body h
  rw [handle_valid env r req err response s b h hs hb]
  simp [renders]

theorem splits_handle_valid (env : ProcessEnv) (r : ℚ) (req : Request)
    (err response : JsValue) (s : String) (h : invalid req.body = some false)
    (hs : env.SALES_AGENT_NUMBERS = some s) :
    splits (handle env r req err response) = [s] := by
  obtain ⟨b, hb⟩ := leadBody_of_valid req.body h
  rw [handle_valid env r req err response s b h hs hb]
  simp [splits, splits_sendCallback]

/-! ## The agent selector -/

theorem randomIndex_largest_draw_one : randomIndex (1 - 1 / 2 ^ 53) 1 = 1 := by
  have hx : ((1 : ℚ) - 1 / 2 ^ 53) * ((1 : Nat) : ℚ) = 1 - 1 / 2 ^ 53 := by norm_num
  obtain ⟨he, _, _, _⟩ := randomIndex_eq_floor_sub_one (1 - 1 / 2 ^ 53) 1
    (by norm_num) (by norm_num)
  have hp : roundDouble ((1 : ℚ) - 1 / 2 ^ 53) = 1 - 1 / 2 ^ 53 :=
    roundDouble_exact _ 0 (by norm_num) (by rw [abs_of_nonneg] <;> norm_num) (2 ^ 53 - 1)
      (by norm_num [zpow_neg])
  rw [hx, hp, roundDouble_two_sub] at he
  rw [he]
  norm_num

theorem largest_draw_is_double :
    (0 : ℚ) ≤ 1 - 1 / 2 ^ 53 ∧ (1 : ℚ) - 1 / 2 ^ 53 < 1
      ∧ roundDouble (1 - 1 / 2 ^ 53) = 1 - 1 / 2 ^ 53 :=
  ⟨by norm_num, by norm_num,
    roundDouble_exact _ 0 (by norm_num) (by rw [abs_of_nonneg] <;> norm_num) (2 ^ 53 - 1)
      (by norm_num [zpow_neg])⟩

theorem randomIndex_tie_draw_six : randomIndex (3752999689475413 / 2 ^ 52) 6 = 5 := by
  obtain ⟨he, _, _, _⟩ := randomIndex_eq_floor_sub_one (3752999689475413 / 2 ^ 52) 6
    (by norm_num) (by norm_num)
  have hx : ((3752999689475413 : ℚ) / 2 ^ 52) * ((6 : Nat) : ℚ)
      = 3752999689475413 / 2 ^ 52 * 6 := by norm_num
  have h6 : roundDouble ((5 : ℚ) + 1) = 6 := by
    have := roundDouble_intCast 6 (by norm_num)
    norm_num at this ⊢
    exact this
  rw [hx, roundDouble_five_sub, h6] at he
  rw [he]
  norm_num

/-- C3, evaluated on the code: with one agent and the draw 1 - 2^-53, the largest double
below 1, line 41 computes the index 1, equal to the number of agents, although the comment
of line 40 announces a number between 0 and the count minus 1; `numbers[1]` is `undefined`
and the message goes to the recipients `[undefined]`. -/
theorem index_out_of_range_at_largest_draw :
    ((0 : ℚ) ≤ 1 - 1 / 2 ^ 53 ∧ (1 : ℚ) - 1 / 2 ^ 53 < 1
        ∧ roundDouble (1 - 1 / 2 ^ 53) = 1 - 1 / 2 ^ 53)
      ∧ split "+1" = ["+1"]
      ∧ randomIndex (1 - 1 / 2 ^ 53) (split "+1").length = 1
      ∧ elementAt (split "+1") (randomIndex (1 - 1 / 2 ^ 53) (split "+1").length)
          = .undefined
      ∧ creates (handle ⟨some "Shop", some "+1"⟩ (1 - 1 / 2 ^ 53)
          ⟨⟨.string "Jane", .string "555"⟩⟩ .null .null) =
        [ { originator := .string "Shop",
            recipients := [.undefined],
            body := "You have a new lead: Jane. Call them at 555" } ] := by
  have hs : split "+1" = ["+1"] := by decide
  have hi : randomIndex (1 - 1 / 2 ^ 53) (split "+1").length = 1 := by
    rw [hs]; exact randomIndex_largest_draw_one
  have he : elementAt (split "+1") (randomIndex (1 - 1 / 2 ^ 53) (split "+1").length)
      = .undefined := by
    rw [hi, hs]; decide
  refine ⟨largest_draw_is_double, hs, hi, he, ?_⟩
  rw [creates_handle_valid ⟨some "Shop", some "+1"⟩ _ ⟨⟨.string "Jane", .string "555"⟩⟩
    .null .null "+1" "You have a new lead: Jane. Call them at 555" (by decide) rfl
    (by decide), he]
  rfl

/-- C8, as stated, fails: the draw 3752999689475413/2^52 is a double with
4/6 ≤ r < 5/6, yet for six agents line 41 computes the index 5 and not 4, the product
r * 6 = 5 - 2^-51 being rounded to 5. -/
theorem index_differs_from_interval :
    roundDouble (3752999689475413 / 2 ^ 52) = 3752999689475413 / 2 ^ 52
      ∧ ((4 : Nat) : ℚ) / ((6 : Nat) : ℚ) ≤ 3752999689475413 / 2 ^ 52
      ∧ (3752999689475413 / 2 ^ 52 : ℚ) < (((4 : Nat) : ℚ) + 1) / ((6 : Nat) : ℚ)
      ∧ randomIndex (3752999689475413 / 2 ^ 52) 6 = 5
      ∧ ¬ (randomIndex (3752999689475413 / 2 ^ 52) 6 = ((4 : Nat) : Int)
            ↔ ((4 : Nat) : ℚ) / ((6 : Nat) : ℚ) ≤ 3752999689475413 / 2 ^ 52
              ∧ (3752999689475413 / 2 ^ 52 : ℚ) < (((4 : Nat) : ℚ) + 1) / ((6 : Nat) : ℚ)) := by
  have hd : roundDouble (3752999689475413 / 2 ^ 52) = 3752999689475413 / 2 ^ 52 :=
    roundDouble_exact _ 0 (by norm_num) (by rw [abs_of_nonneg] <;> norm_num)
      (2 * 3752999689475413) (by norm_num [zpow_neg])
  have h1 : ((4 : Nat) : ℚ) / ((6 : Nat) : ℚ) ≤ 3752999689475413 / 2 ^ 52 := by norm_num
  have h2 : (3752999689475413 / 2 ^ 52 : ℚ) < (((4 : Nat) : ℚ) + 1) / ((6 : Nat) : ℚ) := by
    norm_num
  refine ⟨hd, h1, h2, randomIndex_tie_draw_six, ?_⟩
  intro hiff
  have h4 := hiff.mpr ⟨h1, h2⟩
  rw [randomIndex_tie_draw_six] at h4
  norm_num at h4

/-- C8, amended: in the binary64 arithmetic of line 41, for 1 ≤ N < 2^32, an index
i ≤ N - 1 and a draw 0 ≤ r < 1, the computed index is i whenever
i/N ≤ r ≤ (i + 1 - 2^-20)/N, and it is i only if (i - 2^-20)/N < r < (i + 1)/N; every
such index is the result of some draw that is a double in [0, 1), and the nominal
intervals [i/N, (i+1)/N) all have length 1/N. -/
theorem randomIndex_interval (N i : Nat) (r : ℚ) (hN : 1 ≤ N) (hN32 : N < 2 ^ 32)
    (hi : i ≤ N - 1) (h0 : 0 ≤ r) (h1 : r < 1) :
    ((i : ℚ) / (N : ℚ) ≤ r ∧ r ≤ ((i : ℚ) + 1 - 1 / 2 ^ 20) / (N : ℚ)
        → randomIndex r N = (i : Int))
      ∧ (randomIndex r N = (i : Int)
        → ((i : ℚ) - 1 / 2 ^ 20) / (N : ℚ) < r ∧ r < ((i : ℚ) + 1) / (N : ℚ))
      ∧ (∃ r0 : ℚ, roundDouble r0 = r0 ∧ 0 ≤ r0 ∧ r0 < 1 ∧ randomIndex r0 N = (i : Int))
      ∧ ((i : ℚ) + 1) / (N : ℚ) - (i : ℚ) / (N : ℚ) = 1 / (N : ℚ) := by
  have hpos : (0 : ℚ) < (N : ℚ) := by exact_mod_cast hN
  have hNq : (N : ℚ) < 2 ^ 32 := by exact_mod_cast hN32
  have hiN : i < N := by omega
  have hi32 : i < 2 ^ 32 := by omega
  have hx0 : 0 ≤ r * (N : ℚ) := mul_nonneg h0 hpos.le
  have hx1 : r * (N : ℚ) < 2 ^ 32 := by
    have : r * (N : ℚ) < 1 * (N : ℚ) := mul_lt_mul_of_pos_right h1 hpos
    linarith
  refine ⟨?_, ?_, ?_, by ring⟩
  · rintro ⟨ha, hb⟩
    exact randomIndex_of_bounds r N i hi32 ((div_le_iff₀ hpos).mp ha)
      ((le_div_iff₀ hpos).mp hb)
  · intro he
    constructor
    · by_contra hcon
      have hle : r * (N : ℚ) ≤ (i : ℚ) - 1 / 2 ^ 20 := (le_div_iff₀ hpos).mp (not_lt.mp hcon)
      have := randomIndex_le r N i hx0 hx1 hle
      omega
    · by_contra hcon
      have hge : (i : ℚ) + 1 ≤ r * (N : ℚ) := (div_le_iff₀ hpos).mp (not_lt.mp hcon)
      have := randomIndex_ge r N i hx0 hx1 hge
      omega
  · -- the draw k / 2^40 with k = ⌊(2 i + 1) 2^39 / N⌋
    obtain ⟨k, hk⟩ : ∃ k : Nat, k = (2 * i + 1) * 2 ^ 39 / N := ⟨_, rfl⟩
    have hdm := Nat.div_add_mod ((2 * i + 1) * 2 ^ 39) N
    have hmod := Nat.mod_lt ((2 * i + 1) * 2 ^ 39) (by omega : N > 0)
    rw [← hk] at hdm
    have hup : N * k ≤ (2 * i + 1) * 2 ^ 39 := by omega
    have hlow : i * 2 ^ 40 ≤ N * k := by omega
    have hupq : (N : ℚ) * (k : ℚ) ≤ (2 * (i : ℚ) + 1) * 2 ^ 39 := by exact_mod_cast hup
    have hlowq : (i : ℚ) * 2 ^ 40 ≤ (N : ℚ) * (k : ℚ) := by exact_mod_cast hlow
    have hiNq : (i : ℚ) + 1 ≤ (N : ℚ) := by exact_mod_cast hiN
    have hprod : (k : ℚ) / 2 ^ 40 * (N : ℚ) = (N : ℚ) * (k : ℚ) / 2 ^ 40 := by ring
    have hlo' : (i : ℚ) ≤ (k : ℚ) / 2 ^ 40 * (N : ℚ) := by
      rw [hprod, le_div_iff₀ (by positivity)]
      exact hlowq
    have hhi' : (k : ℚ) / 2 ^ 40 * (N : ℚ) ≤ (i : ℚ) + 1 / 2 := by
      rw [hprod, div_le_iff₀ (by positivity)]
      linarith
    have hr0 : (0 : ℚ) ≤ (k : ℚ) / 2 ^ 40 := by positivity
    have hr1 : (k : ℚ) / 2 ^ 40 < 1 := by
      by_contra hcon
      have h1' : (1 : ℚ) * (N : ℚ) ≤ (k : ℚ) / 2 ^ 40 * (N : ℚ) :=
        mul_le_mul_of_nonneg_right (not_lt.mp hcon) hpos.le
      linarith
    refine ⟨(k : ℚ) / 2 ^ 40, ?_, hr0, hr1, ?_⟩
    · exact roundDouble_exact _ 0 (by norm_num)
        (by rw [abs_of_nonneg hr0]; simpa using hr1) ((k : Int) * 2 ^ 13)
        (by push_cast; norm_num [zpow_neg]; ring)
    · exact randomIndex_of_bounds _ N i hi32 hlo' (by
        have : (1 : ℚ) / 2 ^ 20 ≤ 1 / 2 := by norm_num
        linarith)

theorem randomIndex_interval_witness :
    (((2 : Nat) : ℚ) / ((4 : Nat) : ℚ) ≤ 1 / 2
        ∧ (1 / 2 : ℚ) ≤ (((2 : Nat) : ℚ) + 1 - 1 / 2 ^ 20) / ((4 : Nat) : ℚ)
        → randomIndex (1 / 2) 4 = ((2 : Nat) : Int))
      ∧ (randomIndex (1 / 2) 4 = ((2 : Nat) : Int)
        → (((2 : Nat) : ℚ) - 1 / 2 ^ 20) / ((4 : Nat) : ℚ) < 1 / 2
          ∧ (1 / 2 : ℚ) < (((2 : Nat) : ℚ) + 1) / ((4 : Nat) : ℚ))
      ∧ (∃ r0 : ℚ, roundDouble r0 = r0 ∧ 0 ≤ r0 ∧ r0 < 1
          ∧ randomIndex r0 4 = ((2 : Nat) : Int))
      ∧ (((2 : Nat) : ℚ) + 1) / ((4 : Nat) : ℚ) - ((2 : Nat) : ℚ) / ((4 : Nat) : ℚ)
          = 1 / ((4 : Nat) : ℚ) :=
  randomIndex_interval 4 2 (1 / 2) (by decide) (by norm_num) (by decide) (by norm_num)
    (by norm_num)

/-! ## The form intake handler and the notification dispatcher -/

/-- C1: when `name` is absent or the empty string, or `number` is absent or the empty
string, the handler returns after rendering 'landing' with the error "Please fill all
required fields!", that render is the only one of the request, and `messages.create` is
not called. -/
theorem missing_field_renders_landing (env : ProcessEnv) (r : ℚ) (req : Request)
    (err response : JsValue)
    (h : req.body.name = .undefined ∨ req.body.name = .string ""
      ∨ req.body.number = .undefined ∨ req.body.number = .string "") :
    callme env r req = .finished
        [ .render "landing" (some
            { error := "Please fill all required fields!",
              name := req.body.name,
              number := req.body.number }) ]
      ∧ renders (handle env r req err response) =
        [ ("landing", some
            { error := "Please fill all required fields!",
              name := req.body.name,
              number := req.body.number }) ]
      ∧ creates (handle env r req err response) = [] := by
  have hi := invalid_of_missing req.body h
  refine ⟨callme_invalid env r req hi, ?_, ?_⟩
  · rw [handle_invalid env r req err response hi]; rfl
  · rw [handle_invalid env r req err response hi]; rfl

theorem missing_field_renders_landing_witness :
    callme ⟨some "Shop", some "+1,+2"⟩ (1 / 2) ⟨⟨.string "Jane", .undefined⟩⟩ = .finished
        [ .render "landing" (some
            { error := "Please fill all required fields!",
              name := .string "Jane",
              number := .undefined }) ]
      ∧ renders (handle ⟨some "Shop", some "+1,+2"⟩ (1 / 2) ⟨⟨.string "Jane", .undefined⟩⟩
          .null .null) =
        [ ("landing", some
            { error := "Please fill all required fields!",
              name := .string "Jane",
              number := .undefined }) ]
      ∧ creates (handle ⟨some "Shop", some "+1,+2"⟩ (1 / 2) ⟨⟨.string "Jane", .undefined⟩⟩
          .null .null) = [] :=
  missing_field_renders_landing ⟨some "Shop", some "+1,+2"⟩ (1 / 2)
    ⟨⟨.string "Jane", .undefined⟩⟩ .null .null (Or.inr (Or.inr (Or.inl rfl)))

/-- C2, evaluated on the code: with name "Jane", number "555-1234", the originator "Shop",
the directory ["+10000000001"] and the draw 1 - 2^-53, a double in [0, 1), the one call of
`messages.create` has the configured originator and the stated body, but its recipients
are `[undefined]` and not `["+10000000001"]`: line 41 computes the index 1. -/
theorem jane_message_recipient_undefined :
    ((0 : ℚ) ≤ 1 - 1 / 2 ^ 53 ∧ (1 : ℚ) - 1 / 2 ^ 53 < 1
        ∧ roundDouble (1 - 1 / 2 ^ 53) = 1 - 1 / 2 ^ 53)
      ∧ split "+10000000001" = ["+10000000001"]
      ∧ creates (handle ⟨some "Shop", some "+10000000001"⟩ (1 - 1 / 2 ^ 53)
          ⟨⟨.string "Jane", .string "555-1234"⟩⟩ .null .null) =
        [ { originator := .string "Shop",
            recipients := [.undefined],
            body := "You have a new lead: Jane. Call them at 555-1234" } ]
      ∧ creates (handle ⟨some "Shop", some "+10000000001"⟩ (1 - 1 / 2 ^ 53)
          ⟨⟨.string "Jane", .string "555-1234"⟩⟩ .null .null) ≠
        [ { originator := .string "Shop",
            recipients := [.string "+10000000001"],
            body := "You have a new lead: Jane. Call them at 555-1234" } ] := by
  have hs : split "+10000000001" = ["+10000000001"] := by decide
  have he : elementAt (split "+10000000001")
      (randomIndex (1 - 1 / 2 ^ 53) (split "+10000000001").length) = .undefined := by
    rw [hs, List.length_singleton, randomIndex_largest_draw_one]; decide
  have hc := creates_handle_valid ⟨some "Shop", some "+10000000001"⟩ (1 - 1 / 2 ^ 53)
    ⟨⟨.string "Jane", .string "555-1234"⟩⟩ .null .null "+10000000001"
    "You have a new lead: Jane. Call them at 555-1234" (by decide) rfl (by decide)
  rw [he] at hc
  refine ⟨largest_draw_is_double, hs, ?_, ?_⟩
  · rw [hc]; rfl
  · rw [hc]; decide

/-- C4: for a submission that passes the check of lines 26-27, with the agent list set, and
a failure value `err` (truthy) given to the send callback, the one render of the request is
'landing' with the error "An error occurred while requesting a callback!" and the submitted
name and number; the rendered view and context are the same for any other failure value
and response. -/
theorem dispatch_failure_renders_landing (env : ProcessEnv) (r : ℚ) (req : Request)
    (err response err2 response2 : JsValue) (s : String) (hv : invalid req.body = false)
    (hs : env.SALES_AGENT_NUMBERS = some s) (he : toBoolean err = true)
    (he2 : toBoolean err2 = true) :
    renders (handle env r req err response) =
        [ ("landing", some
            { error := "An error occurred while requesting a callback!",
              name := req.body.name,
              number := req.body.number }) ]
      ∧ renders (handle env r req err2 response2) = renders (handle env r req err response) := by
  rw [renders_handle_valid env r req err response s hv hs,
    renders_handle_valid env r req err2 response2 s hv hs,
    renders_sendCallback_err req err response he,
    renders_sendCallback_err req err2 response2 he2]
  exact ⟨rfl, rfl⟩

theorem dispatch_failure_renders_landing_witness :
    renders (handle ⟨some "Shop", some "+1,+2"⟩ (1 / 2) ⟨⟨.string "Jane", .string "555-1234"⟩⟩
        (.object "Error: api key") .undefined) =
        [ ("landing", some
            { error := "An error occurred while requesting a callback!",
              name := .string "Jane",
              number := .string "555-1234" }) ]
      ∧ renders (handle ⟨some "Shop", some "+1,+2"⟩ (1 / 2)
          ⟨⟨.string "Jane", .string "555-1234"⟩⟩ (.string "timeout") .null)
        = renders (handle ⟨some "Shop", some "+1,+2"⟩ (1 / 2)
          ⟨⟨.string "Jane", .string "555-1234"⟩⟩ (.object "Error: api key") .undefined) :=
  dispatch_failure_renders_landing ⟨some "Shop", some "+1,+2"⟩ (1 / 2)
    ⟨⟨.string "Jane", .string "555-1234"⟩⟩ (.object "Error: api key") .undefined
    (.string "timeout") .null "+1,+2" (by decide) rfl (by decide) (by decide)

/-- C5: every render of 'landing' with a context that the handler performs (after a failed
validation or a failed send) carries in `name` and `number` the submitted `req.body.name`
and `req.body.number`, unchanged. -/
theorem landing_context_echoes_submission (env : ProcessEnv) (r : ℚ) (req : Request)
    (err response : JsValue) (ctx : Context)
    (h : Event.render "landing" (some ctx) ∈ handle env r req err response) :
    ctx.name = req.body.name ∧ ctx.number = req.body.number := by
  cases hv : invalid req.body with
  | none =>
    rw [handle_throws env r req err response hv] at h
    simp at h
  | some v =>
    cases v with
    | true =>
      rw [handle_invalid env r req err response hv] at h
      simp only [List.mem_singleton, Event.render.injEq, Option.some.injEq, true_and] at h
      subst h
      exact ⟨rfl, rfl⟩
    | false =>
      cases hs : env.SALES_AGENT_NUMBERS with
      | none =>
        rw [handle_unset env r req err response hv hs] at h
        simp at h
      | some s =>
        obtain ⟨b, hb⟩ := leadBody_of_valid req.body hv
        rw [handle_valid env r req err response s b hv hs hb] at h
        unfold sendCallback at h
        split at h
        · simp only [List.cons_append, List.nil_append, List.mem_cons, reduceCtorEq,
            false_or, Event.render.injEq, Option.some.injEq, true_and, List.mem_nil_iff,
            or_false] at h
          subst h
          exact ⟨rfl, rfl⟩
        · simp at h

theorem landing_context_echoes_submission_witness :
    Event.render "landing" (some ⟨"Please fill all required fields!", .string "  ", .string ""⟩)
        ∈ handle ⟨some "Shop", some "+1,+2"⟩ (1 / 2) ⟨⟨.string "  ", .string ""⟩⟩ .null .null
      ∧ (⟨"Please fill all required fields!", .string "  ", .string ""⟩ : Context).name
          = (⟨⟨.string "  ", .string ""⟩⟩ : Request).body.name
      ∧ (⟨"Please fill all required fields!", .string "  ", .string ""⟩ : Context).number
          = (⟨⟨.string "  ", .string ""⟩⟩ : Request).body.number :=
  have hmem : Event.render "landing"
      (some ⟨"Please fill all required fields!", .string "  ", .string ""⟩)
      ∈ handle ⟨some "Shop", some "+1,+2"⟩ (1 / 2) ⟨⟨.string "  ", .string ""⟩⟩ .null .null := by
    rw [handle_invalid _ _ _ _ _ (by decide)]
    exact List.mem_singleton.mpr rfl
  ⟨hmem, landing_context_echoes_submission ⟨some "Shop", some "+1,+2"⟩ (1 / 2)
    ⟨⟨.string "  ", .string ""⟩⟩ .null .null _ hmem⟩

/-- C6: for a submission that passes the check of lines 26-27, with the agent list set, when
the send callback receives a falsy `err`, the one render of the request is 'sent' with no
context, whatever the response is. -/
theorem dispatch_success_renders_sent (env : ProcessEnv) (r : ℚ) (req : Request)
    (err response : JsValue) (s : String) (hv : invalid req.body = false)
    (hs : env.SALES_AGENT_NUMBERS = some s) (he : toBoolean err = false) :
    renders (handle env r req err response) = [("sent", none)] := by
  rw [renders_handle_valid env r req err response s hv hs,
    renders_sendCallback_ok req err response he]

theorem dispatch_success_renders_sent_witness :
    renders (handle ⟨some "Shop", some "+1,+2"⟩ (1 / 2) ⟨⟨.string "Jane", .string "555-1234"⟩⟩
        .null (.object "[object Object]")) = [("sent", none)] :=
  dispatch_success_renders_sent ⟨some "Shop", some "+1,+2"⟩ (1 / 2)
    ⟨⟨.string "Jane", .string "555-1234"⟩⟩ .null (.object "[object Object]") "+1,+2"
    (by decide) rfl (by decide)

/-- C7, as stated, fails: after the form post `name[toString]=x&number=555` the comparison
`req.body.name == ''` of line 27 throws, and the request ends in the handler without any
render, the agent list being set. -/
theorem unconvertible_name_renders_nothing :
    callme ⟨some "Shop", some "+1"⟩ (1 / 2) ⟨⟨.objectNoPrimitive, .string "555"⟩⟩ = .threw []
      ∧ renders (handle ⟨some "Shop", some "+1"⟩ (1 / 2)
          ⟨⟨.objectNoPrimitive, .string "555"⟩⟩ .null .null) = [] := by
  constructor
  · exact callme_throws _ _ _ (by decide)
  · rw [handle_throws _ _ _ _ _ (by decide)]; rfl

/-- C7, amended: with the agent list set and the send callback (if any) invoked once, a
request whose check of lines 26-27 completes performs exactly one render: 'landing' when
the check finds a field missing, 'landing' when the send fails, 'sent' when the send
succeeds; a request whose check throws, a field being an object without a conversion to a
primitive, performs no render. -/
theorem one_render_when_check_completes (env : ProcessEnv) (r : ℚ) (req : Request)
    (err response : JsValue) (s : String) (hs : env.SALES_AGENT_NUMBERS = some s) :
    renders (handle env r req err response) =
      match invalid req.body with
      | none => []
      | some true =>
        [ ("landing", some
            { error := "Please fill all required fields!",
              name := req.body.name,
              number := req.body.number }) ]
      | some false =>
        [ if toBoolean err = true then
            ("landing", some
              { error := "An error occurred while requesting a callback!",
                name := req.body.name,
                number := req.body.number })
          else ("sent", none) ] := by
  cases hv : invalid req.body with
  | none => rw [handle_throws env r req err response hv]; rfl
  | some v =>
    cases v with
    | true => rw [handle_invalid env r req err response hv]; rfl
    | false =>
      rw [renders_handle_valid env r req err response s hv hs]
      cases he : toBoolean err with
      | true => rw [renders_sendCallback_err req err response he]; rfl
      | false => rw [renders_sendCallback_ok req err response he]; rfl

theorem one_render_when_check_completes_witness :
    renders (handle ⟨none, some ""⟩ 0 ⟨⟨.object "a,b", .string "555"⟩⟩ (.number 1) .null) =
      match invalid (⟨⟨.object "a,b", .string "555"⟩⟩ : Request).body with
      | none => []
      | some true =>
        [ ("landing", some
            { error := "Please fill all required fields!",
              name := (⟨⟨.object "a,b", .string "555"⟩⟩ : Request).body.name,
              number := (⟨⟨.object "a,b", .string "555"⟩⟩ : Request).body.number }) ]
      | some false =>
        [ if toBoolean (.number 1) = true then
            ("landing", some
              { error := "An error occurred while requesting a callback!",
                name := (⟨⟨.object "a,b", .string "555"⟩⟩ : Request).body.name,
                number := (⟨⟨.object "a,b", .string "555"⟩⟩ : Request).body.number })
          else ("sent", none) ] :=
  one_render_when_check_completes ⟨none, some ""⟩ 0 ⟨⟨.object "a,b", .string "555"⟩⟩
    (.number 1) .null "" rfl

/-! ## The agent directory -/

/-- C9, as stated, fails: a request with name "Jane" and number "555-1234", handled with the
agent list "+1,+2", calls `split` on the configuration string. -/
theorem request_splits_configuration :
    splits (handle ⟨some "Shop", some "+1,+2"⟩ 0 ⟨⟨.string "Jane", .string "555-1234"⟩⟩
        .null .null) = ["+1,+2"]
      ∧ splits (handle ⟨some "Shop", some "+1,+2"⟩ 0 ⟨⟨.string "Jane", .string "555-1234"⟩⟩
        .null .null) ≠ [] := by
  rw [splits_handle_valid _ _ _ _ _ "+1,+2" (by decide) rfl]
  exact ⟨rfl, List.cons_ne_nil _ _⟩

/-- C9, amended: the configuration string is parsed while a request is handled. A request
that passes the check of lines 26-27 while the agent list is set to `s` calls `split`
exactly once, on `s`, and the one recipient of its message is the element of that result at
the computed index; every other request (a check that fails or throws, or an unset agent
list) calls `split` not at all. -/
theorem split_inside_handler (env : ProcessEnv) (r : ℚ) (req : Request)
    (err response : JsValue) :
    splits (handle env r req err response) =
        (match invalid req.body, env.SALES_AGENT_NUMBERS with
          | some false, some s => [s]
          | _, _ => [])
      ∧ ∀ s, invalid req.body = some false → env.SALES_AGENT_NUMBERS = some s →
          Event.split s (split s) ∈ handle env r req err response
          ∧ ∃ m, creates (handle env r req err response) = [m]
            ∧ m.recipients = [elementAt (split s) (randomIndex r (split s).length)] := by
  constructor
  · cases hv : invalid req.body with
    | none => rw [handle_throws env r req err response hv]; rfl
    | some v =>
      cases v with
      | true => rw [handle_invalid env r req err response hv]; rfl
      | false =>
        cases hs : env.SALES_AGENT_NUMBERS with
        | none => rw [handle_unset env r req err response hv hs]; rfl
        | some s => rw [splits_handle_valid env r req err response s hv hs]
  · intro s hv hs
    obtain ⟨b, hb⟩ := leadBody_of_valid req.body hv
    refine ⟨?_, _, creates_handle_valid env r req err response s b hv hs hb, rfl⟩
    rw [handle_valid env r req err response s b hv hs hb]
    simp

theorem split_inside_handler_witness :
    splits (handle ⟨some "Shop", none⟩ (3 / 4) ⟨⟨.string "Jane", .string "555"⟩⟩
        .null .null) =
        (match invalid (⟨⟨.string "Jane", .string "555"⟩⟩ : Request).body,
            (⟨some "Shop", none⟩ : ProcessEnv).SALES_AGENT_NUMBERS with
          | some false, some s => [s]
          | _, _ => [])
      ∧ splits (handle ⟨some "Shop", some "+1,+2"⟩ (3 / 4)
          ⟨⟨.string "Jane", .string "555"⟩⟩ .null .null) =
        (match invalid (⟨⟨.string "Jane", .string "555"⟩⟩ : Request).body,
            (⟨some "Shop", some "+1,+2"⟩ : ProcessEnv).SALES_AGENT_NUMBERS with
          | some false, some s => [s]
          | _, _ => [])
      ∧ Event.split "+1,+2" (split "+1,+2")
          ∈ handle ⟨some "Shop", some "+1,+2"⟩ (3 / 4) ⟨⟨.string "Jane", .string "555"⟩⟩
              .null .null :=
  ⟨(split_inside_handler ⟨some "Shop", none⟩ (3 / 4) ⟨⟨.string "Jane", .string "555"⟩⟩
      .null .null).1,
    (split_inside_handler ⟨some "Shop", some "+1,+2"⟩ (3 / 4)
      ⟨⟨.string "Jane", .string "555"⟩⟩ .null .null).1,
    ((split_inside_handler ⟨some "Shop", some "+1,+2"⟩ (3 / 4)
      ⟨⟨.string "Jane", .string "555"⟩⟩ .null .null).2 "+1,+2" (by decide) rfl).1⟩

/-- C10, evaluated on the code: `"".split(',')` is `[""]`, a directory of one element, but
with the draw 1 - 2^-53, a double in [0, 1), line 41 computes the index 1 and the message
of a valid submission is sent to the recipients `[undefined]` and not `[""]`. -/
theorem empty_configuration_recipient_undefined :
    ((0 : ℚ) ≤ 1 - 1 / 2 ^ 53 ∧ (1 : ℚ) - 1 / 2 ^ 53 < 1
        ∧ roundDouble (1 - 1 / 2 ^ 53) = 1 - 1 / 2 ^ 53)
      ∧ split "" = [""]
      ∧ 1 ≤ (split "").length
      ∧ invalid (⟨⟨.string "Jane", .string "555"⟩⟩ : Request).body = some false
      ∧ creates (handle ⟨some "Shop", some ""⟩ (1 - 1 / 2 ^ 53)
          ⟨⟨.string "Jane", .string "555"⟩⟩ .null .null) =
        [ { originator := .string "Shop",
            recipients := [.undefined],
            body := "You have a new lead: Jane. Call them at 555" } ]
      ∧ creates (handle ⟨some "Shop", some ""⟩ (1 - 1 / 2 ^ 53)
          ⟨⟨.string "Jane", .string "555"⟩⟩ .null .null) ≠
        [ { originator := .string "Shop",
            recipients := [.string ""],
            body := "You have a new lead: Jane. Call them at 555" } ] := by
  have hs : split "" = [""] := by decide
  have he : elementAt (split "") (randomIndex (1 - 1 / 2 ^ 53) (split "").length)
      = .undefined := by
    rw [hs, List.length_singleton, randomIndex_largest_draw_one]; decide
  have hc := creates_handle_valid ⟨some "Shop", some ""⟩ (1 - 1 / 2 ^ 53)
    ⟨⟨.string "Jane", .string "555"⟩⟩ .null .null ""
    "You have a new lead: Jane. Call them at 555" (by decide) rfl (by decide)
  rw [he] at hc
  refine ⟨largest_draw_is_double, hs, by rw [hs]; decide, by decide, ?_, ?_⟩
  · rw [hc]; rfl
  · rw [hc]; decide

end LeadAlerts
